import Mathlib

/-!
Verification development for the FashionDetector repository.

The development shallowly embeds the core components of the repository:
* `src/middleware/rate_limiter.py` — sliding-window rate limiter with punitive
  blocking (`RateLimiter`);
* `src/services/search_state_service.py` — file-per-record search state store
  (`SearchStateService`), modelled as a pure map from search identifiers to
  records;
* `src/services/search_service.py` — the search orchestrator
  (`SearchService.process_search`, `SearchService.validate_image`), with the
  external collaborators (image saving, vision analysis, store scraping,
  database repository) modelled as oracles that either return a value or
  raise;
* `src/services/vision_service.py` — the analyzer wrapper
  (`VisionService.analyze_clothing_image`);
* `src/routers/searches.py` — the submission endpoint (`create_search`).

Timestamps are modelled as integers (`ℤ`); Python `datetime`/`time.time`
values enter the embedding as explicit `now` parameters.  Maps (`dict`,
`defaultdict`) are modelled as functions into `Option`/`List` with
`Function.update` for single-key writes.
-/

namespace FashionDetector

/-! ## Data model: `src/models/search.py` and the persisted search record -/

/-- `SearchStatus` from `src/services/search_state_service.py`:
`processing | completed | failed`. -/
inductive SearchStatus
  | processing
  | completed
  | failed
deriving DecidableEq, Repr

/-- `AttributeRecognition` from `src/models/search.py`. -/
structure AttributeRecognition where
  name : String
  value : String
  confidence : ℚ
deriving DecidableEq, Repr

/-- One entry of the `stores_searched` list of a persisted state, as built by
`SearchStateService.initialize_search`:
`{"name": store, "status": ..., "time_ms": ...}`. -/
structure StoreState where
  name : String
  status : SearchStatus
  time_ms : ℤ
deriving DecidableEq, Repr

/-- The persisted search record, as built by
`SearchStateService.initialize_search` and mutated by the `update_*`
methods. -/
structure SearchState where
  search_id : String
  status : SearchStatus
  start_time : ℤ
  end_time : Option ℤ
  elapsed_time_ms : ℤ
  stores_searched : List StoreState
  attributes_recognized : List AttributeRecognition
  result_count : ℤ
deriving DecidableEq, Repr

/-- The state directory: one record per search identifier
(`temp/search_states/{search_id}.json`); `none` models a missing file
(`_load_state` returning `None`). -/
def StateStore : Type := String → Option SearchState

/-! ## `SearchStateService` operations -/

/-- `SearchStateService.initialize_search`: persists a fresh record with all
requested stores in `processing` sub-status.  `now` models
`datetime.now()` at initialization. -/
def initialize_search (s : StateStore) (search_id : String) (stores : List String)
    (now : ℤ) : StateStore :=
  Function.update s search_id (some
    { search_id := search_id
      status := SearchStatus.processing
      start_time := now
      end_time := none
      elapsed_time_ms := 0
      stores_searched := stores.map (fun store =>
        { name := store, status := SearchStatus.processing, time_ms := 0 })
      attributes_recognized := []
      result_count := 0 })

/-- `SearchStateService.update_search_status`: loads the record (no-op when
missing), sets the overall status, and on a terminal status records
`end_time` and computes `elapsed_time_ms = end_time - start_time`
(times in milliseconds). -/
def update_search_status (s : StateStore) (search_id : String)
    (status : SearchStatus) (now : ℤ) : StateStore :=
  match s search_id with
  | none => s
  | some state =>
    let state₁ := { state with status := status }
    let state₂ :=
      if status = SearchStatus.completed ∨ status = SearchStatus.failed then
        { state₁ with end_time := some now, elapsed_time_ms := now - state₁.start_time }
      else state₁
    Function.update s search_id (some state₂)

/-- The `for ... break` loop body of `SearchStateService.update_store_status`:
update the first entry whose `name` matches `store`, leave the rest
untouched. -/
def updateFirstStore (stores : List StoreState) (store : String)
    (status : SearchStatus) (time_ms : ℤ) : List StoreState :=
  match stores with
  | [] => []
  | e :: rest =>
    if e.name = store then { e with status := status, time_ms := time_ms } :: rest
    else e :: updateFirstStore rest store status time_ms

/-- `SearchStateService.update_store_status`: loads the record (no-op when
missing) and updates the first matching store entry. -/
def update_store_status (s : StateStore) (search_id : String) (store : String)
    (status : SearchStatus) (time_ms : ℤ) : StateStore :=
  match s search_id with
  | none => s
  | some state =>
    Function.update s search_id (some
      { state with stores_searched :=
          updateFirstStore state.stores_searched store status time_ms })

/-- `SearchStateService.update_attributes`: loads the record (no-op when
missing) and overwrites `attributes_recognized`. -/
def update_attributes (s : StateStore) (search_id : String)
    (attributes : List AttributeRecognition) : StateStore :=
  match s search_id with
  | none => s
  | some state =>
    Function.update s search_id (some { state with attributes_recognized := attributes })

/-- `SearchStateService.update_result_count`: loads the record (no-op when
missing) and overwrites `result_count`. -/
def update_result_count (s : StateStore) (search_id : String) (count : ℤ) :
    StateStore :=
  match s search_id with
  | none => s
  | some state =>
    Function.update s search_id (some { state with result_count := count })

/-! ## Rate limiter: `src/middleware/rate_limiter.py` -/

/-- Constructor arguments of `RateLimiter.__init__`. -/
structure RateLimiterConfig where
  anonymous_limit : ℕ
  authenticated_limit : ℕ
  window_size : ℤ
  block_time : ℤ
deriving Repr

/-- The limiter's mutable per-client maps: `request_records` is a
`defaultdict(list)` of timestamps, `blocked_clients` a `dict` mapping a
client to its unblock time (`none` models absence of the key). -/
structure RateLimiterState where
  request_records : String → List ℤ
  blocked_clients : String → Option ℤ

/-- The limiter's initial state: no recorded requests, no blocked clients. -/
def RateLimiterState.init : RateLimiterState :=
  { request_records := fun _ => [], blocked_clients := fun _ => none }

/-- `RateLimiter._is_client_blocked`: returns `(is_blocked,
seconds_until_unblock)` and removes the block entry once `now >=
unblock_time`. -/
def is_client_blocked (now : ℤ) (client_ip : String) (st : RateLimiterState) :
    (Bool × ℤ) × RateLimiterState :=
  match st.blocked_clients client_ip with
  | none => ((false, 0), st)
  | some unblock_time =>
    if now ≥ unblock_time then
      ((false, 0),
        { st with blocked_clients := Function.update st.blocked_clients client_ip none })
    else
      ((true, unblock_time - now), st)

/-- `RateLimiter._check_rate_limit`: prunes the client's timestamps to those
strictly newer than `now - window_size`, compares the pruned count with
the applicable limit, and on exceedance installs a block entry at
`now + block_time`.  Returns `(limit_exceeded, retry_after_seconds)`. -/
def check_rate_limit (cfg : RateLimiterConfig) (is_authenticated : Bool)
    (now : ℤ) (client_ip : String) (st : RateLimiterState) :
    (Bool × ℤ) × RateLimiterState :=
  let window_start := now - cfg.window_size
  let pruned := (st.request_records client_ip).filter (fun t => window_start < t)
  let st₁ : RateLimiterState :=
    { st with request_records := Function.update st.request_records client_ip pruned }
  let limit := if is_authenticated then cfg.authenticated_limit else cfg.anonymous_limit
  if pruned.length ≥ limit then
    ((true, cfg.block_time),
      { st₁ with blocked_clients :=
          Function.update st₁.blocked_clients client_ip (some (now + cfg.block_time)) })
  else
    ((false, 0), st₁)

/-- `RateLimiter._record_request`: appends `now` to the client's timestamp
list. -/
def record_request (now : ℤ) (client_ip : String) (st : RateLimiterState) :
    RateLimiterState :=
  { st with request_records :=
      Function.update st.request_records client_ip ((st.request_records client_ip).concat now) }

/-- The rate-limited path of `RateLimiter.dispatch`: block check, then window
check, then (only when allowed) recording.  Returns `(allowed,
retry_after_seconds)`; `allowed = false` corresponds to the 429
response. -/
def rate_limiter_step (cfg : RateLimiterConfig) (is_authenticated : Bool)
    (now : ℤ) (client_ip : String) (st : RateLimiterState) :
    (Bool × ℤ) × RateLimiterState :=
  let blocked := is_client_blocked now client_ip st
  if blocked.1.1 then
    ((false, blocked.1.2), blocked.2)
  else
    let checked := check_rate_limit cfg is_authenticated now client_ip blocked.2
    if checked.1.1 then
      ((false, checked.1.2), checked.2)
    else
      ((true, 0), record_request now client_ip checked.2)

/-- Run `rate_limiter_step` over a sequence of request times for one client;
returns the final state and the timestamps of the accepted requests, in
order. -/
def run_requests (cfg : RateLimiterConfig) (is_authenticated : Bool)
    (client_ip : String) : RateLimiterState → List ℤ → RateLimiterState × List ℤ
  | st, [] => (st, [])
  | st, now :: rest =>
    let step := rate_limiter_step cfg is_authenticated now client_ip st
    let tail := run_requests cfg is_authenticated client_ip step.2 rest
    (tail.1, if step.1.1 then now :: tail.2 else tail.2)

/-- A sample two-store record used to exercise the state operations. -/
def sampleRecord : SearchState :=
  { search_id := "s1", status := SearchStatus.processing, start_time := 0,
    end_time := none, elapsed_time_ms := 0,
    stores_searched := [
      { name := "zalando", status := SearchStatus.processing, time_ms := 0 },
      { name := "asos", status := SearchStatus.processing, time_ms := 0 }],
    attributes_recognized := [], result_count := 0 }

/-- A sample store holding `sampleRecord` under identifier `"s1"`. -/
def sampleStore : StateStore :=
  fun i => if i = "s1" then some sampleRecord else none

/-- The limit applied by `RateLimiter._check_rate_limit`:
`self.authenticated_limit if is_authenticated else self.anonymous_limit`. -/
def applicableLimit (cfg : RateLimiterConfig) (is_authenticated : Bool) : ℕ :=
  if is_authenticated then cfg.authenticated_limit else cfg.anonymous_limit

/-- Membership of a timestamp in the rolling window of `W` seconds ending at
`a + W` (half-open on the left). -/
def inWindow (W a t : ℤ) : Bool := decide (a < t) && decide (t ≤ a + W)

/-- Invariant tying the limiter state for one client to the list `acc` of
timestamps it accepted so far, `t₀` being the latest time seen:
the stored timestamp list is a sub-multiset of the accepted ones,
agrees with them on the current window, everything is in the past, and
every rolling window holds at most `limit` accepted timestamps. -/
structure WindowInv (cfg : RateLimiterConfig) (limit : ℕ) (client_ip : String)
    (st : RateLimiterState) (acc : List ℤ) (t₀ : ℤ) : Prop where
  count_le : ∀ x : ℤ, (st.request_records client_ip).count x ≤ acc.count x
  recent_ge : ∀ x : ℤ, t₀ - cfg.window_size < x →
    acc.count x ≤ (st.request_records client_ip).count x
  bounded_rec : ∀ x ∈ st.request_records client_ip, x ≤ t₀
  bounded_acc : ∀ x ∈ acc, x ≤ t₀
  window_le : ∀ a : ℤ, acc.countP (inWindow cfg.window_size a) ≤ limit

/-! ## Orchestrator: `src/services/search_service.py` with collaborators as
oracles -/

/-- `ProductAttribute` from `src/models/search.py`. -/
structure ProductAttribute where
  color : Option String
  pattern : Option String
  cut : Option String
  brand : Option String
deriving DecidableEq, Repr

/-- `ProductAlternative` from `src/models/search.py`. -/
structure ProductAlternative where
  color : String
  url : String
deriving DecidableEq, Repr

/-- `Product` from `src/models/search.py`. -/
structure Product where
  title : String
  store : String
  url : String
  similarity_score : ℚ
  attributes : ProductAttribute
  alternatives : List ProductAlternative
deriving DecidableEq, Repr

/-- Behaviour of the collaborators invoked by `SearchService.process_search`,
fixed up front.  Calls that can raise either return a value (`Except.ok`)
or raise (`Except.error`): `save_image_result` is
`SearchService.save_image` (which returns `None` on an internally caught
failure), `analyze_result` is `VisionService.analyze_clothing_image`,
`save_attributes_result` and `save_metrics_result` are the
`SearchRepository.save_attributes_batch` / `save_search_metrics` writes,
and `search_store_result` is `ScraperService.search_store` per store.
`save_store_search_result` is `SearchRepository.save_store_search` per
store and `search_performed` flag: that method wraps its whole body in
`try/except Exception` and returns `False` on any error, so it never
raises and only returns a success flag (which `process_search` discards).
`store_search_time_ms` is the clock reading taken when a store search
returns. -/
structure ProcessOracles where
  save_image_result : Except Unit (Option String)
  analyze_result : Except Unit (List AttributeRecognition × ℤ)
  save_attributes_result : Except Unit Unit
  search_store_result : String → Except Unit (List Product)
  store_search_time_ms : String → ℤ
  save_store_search_result : String → Bool → Bool
  save_metrics_result : Except Unit Unit

/-- The `for store in stores` loop of `SearchService.process_search`,
including its inner `try/except`: mark the store `processing`, invoke the
store search; on success add `len(products)` to the running total, mark
the store `completed` and write the store-search row; when the store
search raises, the handler marks the store `failed` (time 0) and writes
the failure row.  The repository write cannot raise (it catches every
exception internally and returns `False`) and its returned flag is
discarded, so the loop always runs to completion over all stores. -/
def process_stores (o : ProcessOracles) (search_id : String) :
    List String → StateStore → ℤ → StateStore × ℤ
  | [], s, total => (s, total)
  | store :: rest, s, total =>
    let s₁ := update_store_status s search_id store SearchStatus.processing 0
    match o.search_store_result store with
    | Except.error _ =>
      let s₂ := update_store_status s₁ search_id store SearchStatus.failed 0
      let _saved := o.save_store_search_result store false
      process_stores o search_id rest s₂ total
    | Except.ok products =>
      let s₂ := update_store_status s₁ search_id store SearchStatus.completed
        (o.store_search_time_ms store)
      let _saved := o.save_store_search_result store true
      process_stores o search_id rest s₂ (total + products.length)

/-- The body of the outer `try` of `SearchService.process_search`:
initialize the state, save the image (early `failed` return when it
returns `None`), analyze, persist attributes, run the store loop, then
record the result count, mark the search `completed` and save metrics.
An `Except.error` models an exception escaping to the outer handler,
carrying the state at the raise point. -/
def process_search_body (o : ProcessOracles) (stores : List String)
    (search_id : String) (now : ℤ) (s : StateStore) : Except StateStore StateStore :=
  let s₁ := initialize_search s search_id stores now
  match o.save_image_result with
  | Except.error _ => Except.error s₁
  | Except.ok none => Except.ok (update_search_status s₁ search_id SearchStatus.failed now)
  | Except.ok (some _image_url) =>
    match o.analyze_result with
    | Except.error _ => Except.error s₁
    | Except.ok (attributes, _analysis_time_ms) =>
      let s₂ := update_attributes s₁ search_id attributes
      match o.save_attributes_result with
      | Except.error _ => Except.error s₂
      | Except.ok _ =>
        let loop := process_stores o search_id stores s₂ 0
        let s₄ := update_result_count loop.1 search_id loop.2
        let s₅ := update_search_status s₄ search_id SearchStatus.completed now
        match o.save_metrics_result with
        | Except.error _ => Except.error s₅
        | Except.ok _ => Except.ok s₅

/-- `SearchService.process_search`: the outer `try/except` — any exception
escaping the body forces `status = failed`. -/
def process_search (o : ProcessOracles) (stores : List String) (search_id : String)
    (now : ℤ) (s : StateStore) : StateStore :=
  match process_search_body o stores search_id now s with
  | Except.ok s' => s'
  | Except.error s' => update_search_status s' search_id SearchStatus.failed now

/-- The terminal per-store entry produced by one iteration of the store
loop: `completed` with the clock reading when the store search returns,
`failed` with time 0 when it raises. -/
def store_outcome (o : ProcessOracles) (store : String) : StoreState :=
  match o.search_store_result store with
  | Except.error _ => { name := store, status := SearchStatus.failed, time_ms := 0 }
  | Except.ok _ =>
    { name := store, status := SearchStatus.completed,
      time_ms := o.store_search_time_ms store }

/-- The contribution of one store to `total_results`: `len(products)` when
the store search returned, 0 when it raised. -/
def store_count (o : ProcessOracles) (store : String) : ℤ :=
  match o.search_store_result store with
  | Except.error _ => 0
  | Except.ok products => products.length

/-! ## Vision service: `src/services/vision_service.py` -/

/-- Behaviour of the external pieces of
`VisionService.analyze_clothing_image`: whether an API key is configured,
the parsed attribute list of a successful request (`Except.error` models
the request or parsing raising inside the `try`), and the elapsed-clock
reading. -/
structure VisionOracle where
  has_api_key : Bool
  api_response : Except Unit (List AttributeRecognition)
  elapsed_ms : ℤ

/-- `VisionService.analyze_clothing_image`: with no API key it returns
`([], 0)`; any exception inside the `try` is caught and yields
`([], elapsed)`; otherwise the parsed attributes are returned with the
elapsed time.  The function never raises. -/
def analyze_clothing_image (vo : VisionOracle) : List AttributeRecognition × ℤ :=
  if vo.has_api_key = false then ([], 0)
  else
    match vo.api_response with
    | Except.error _ => ([], vo.elapsed_ms)
    | Except.ok attributes => (attributes, vo.elapsed_ms)

/-! ## Store-search scheduling order (instrumentation of the store loop) -/

/-- Scheduling events of the store phase of `process_search`: the start and
return of each awaited `search_store` call, and the aggregation step. -/
inductive SearchEvent
  | begin_store_search (store : String)
  | end_store_search (store : String)
  | aggregate
deriving DecidableEq, Repr

/-- Program-order events emitted by the `for store in stores` loop of
`SearchService.process_search`: each iteration awaits
`scraper_service.search_store(...)` to completion (success or exception)
before the next iteration starts, so the events of one store are emitted
before the next store's. -/
def process_stores_events : List String → List SearchEvent
  | [] => []
  | store :: rest =>
    SearchEvent.begin_store_search store ::
      SearchEvent.end_store_search store :: process_stores_events rest

/-- Events of the store phase followed by the aggregation step
(`update_result_count` / `update_search_status(COMPLETED)`), which the
code runs after the loop finishes. -/
def process_search_events (stores : List String) : List SearchEvent :=
  process_stores_events stores ++ [SearchEvent.aggregate]

/-- A parallel fan-out in the sense of the specification (`asyncio.gather`
over one task per store): every store search has started before any store
search completes. -/
def fan_out_order (events : List SearchEvent) : Prop :=
  ∀ (i j : ℕ) (hi : i < events.length) (hj : j < events.length),
    (∃ st, events.get ⟨i, hi⟩ = SearchEvent.begin_store_search st) →
    (∃ st, events.get ⟨j, hj⟩ = SearchEvent.end_store_search st) →
    i < j

/-! ## Submission endpoint: `src/routers/searches.py` and
`SearchService.validate_image` -/

/-- The uploaded file as the validator sees it: its declared MIME type and
the byte length of its payload. -/
structure UploadImage where
  content_type : String
  content_size : ℕ

/-- `SearchService.validate_image`: MIME type must be `image/jpeg` or
`image/png`, then the size in MiB (`len(content) / (1024 * 1024)`) must
not exceed 10.  Returns `(is_valid, error_message)`. -/
def validate_image (image : UploadImage) : Bool × String :=
  if image.content_type ≠ "image/jpeg" ∧ image.content_type ≠ "image/png" then
    (false, "Invalid image format. Only JPEG/PNG accepted.")
  else if (image.content_size : ℚ) / (1024 * 1024) > 10 then
    (false, "Image too large. Maximum size is 10 MB.")
  else
    (true, "")

/-- `SearchResponse` from `src/models/search.py`. -/
structure SearchResponse where
  search_id : String
  status : String
  estimated_time_seconds : ℤ
  timestamp : String
deriving DecidableEq, Repr

/-- An `HTTPException` raised by the router. -/
structure HTTPError where
  status_code : ℕ
  detail : String
deriving DecidableEq, Repr

/-- `list(StoreEnum)`: the full supported store set. -/
def allStores : List String := ["zalando", "modivo", "asos"]

/-- `create_search` from `src/routers/searches.py`: validate the image
(raising a 400 with the validator's message on failure, before any
background work), default the store list when absent or empty, schedule
the background task, and answer 202 with
`{search_id, "processing", 10, timestamp}`.  Returns the HTTP outcome
(status code paired with the response), the state store (untouched — the
record is only created by the background task), and the store list handed
to the scheduled background task (`none` when no task was scheduled). -/
def create_search (image : UploadImage) (stores : Option (List String))
    (search_id timestamp : String) (s : StateStore) :
    Except HTTPError (ℕ × SearchResponse) × StateStore × Option (List String) :=
  let v := validate_image image
  if v.1 = false then
    (Except.error { status_code := 400, detail := v.2 }, s, none)
  else
    let stores' :=
      match stores with
      | none => allStores
      | some l => if l = [] then allStores else l
    (Except.ok (202,
      { search_id := search_id, status := "processing", estimated_time_seconds := 10,
        timestamp := timestamp }), s, some stores')

/-- The result count the specification claims for a completed record: the sum
of the product-list lengths of exactly those stores whose sub-status is
`completed` (a `failed` store contributes zero). -/
def claimed_result_count (o : ProcessOracles) (entries : List StoreState) : ℤ :=
  ((entries.filter fun e => e.status = SearchStatus.completed).map
    fun e => store_count o e.name).sum

/-- A sample scraped product. -/
def sampleProduct : Product :=
  { title := "Brand red solid regular shirt", store := "modivo",
    url := "https://modivo.example.com/product0", similarity_score := 95 / 100,
    attributes := { color := some "red", pattern := some "solid", cut := some "regular", brand := none },
    alternatives := [] }

/-- Collaborator behaviour where the store search raises for `"zalando"` and
returns two products for every other store; everything else succeeds. -/
def failingStoreOracle : ProcessOracles :=
  { save_image_result := Except.ok (some "temp/s1.jpg")
    analyze_result := Except.ok ([], 100)
    save_attributes_result := Except.ok ()
    search_store_result := fun st =>
      if st = "zalando" then Except.error () else Except.ok [sampleProduct, sampleProduct]
    store_search_time_ms := fun _ => 50
    save_store_search_result := fun _ _ => true
    save_metrics_result := Except.ok () }

/-- A vision collaborator with no API key configured. -/
def noKeyVision : VisionOracle :=
  { has_api_key := false
    api_response := Except.ok [{ name := "color", value := "red", confidence := 95 / 100 }]
    elapsed_ms := 7 }

/-- Collaborator behaviour whose analysis result is the one `noKeyVision`
produces, with one store returning one product. -/
def noKeyOracle : ProcessOracles :=
  { save_image_result := Except.ok (some "temp/s1.jpg")
    analyze_result := Except.ok ([], 0)
    save_attributes_result := Except.ok ()
    search_store_result := fun _ => Except.ok [sampleProduct]
    store_search_time_ms := fun _ => 50
    save_store_search_result := fun _ _ => true
    save_metrics_result := Except.ok () }

theorem is_client_blocked_records (now : ℤ) (client_ip : String)
    (st : RateLimiterState) :
    (is_client_blocked now client_ip st).2.request_records = st.request_records := by
  unfold is_client_blocked
  cases st.blocked_clients client_ip with
  | none => rfl
  | some unblock_time => by_cases h : now ≥ unblock_time <;> simp [h]

theorem check_rate_limit_exceeded (cfg : RateLimiterConfig)
    (is_authenticated : Bool) (now : ℤ) (client_ip : String)
    (st : RateLimiterState)
    (h : applicableLimit cfg is_authenticated ≤
      ((st.request_records client_ip).filter
        (fun t => now - cfg.window_size < t)).length) :
    check_rate_limit cfg is_authenticated now client_ip st =
      ((true, cfg.block_time),
        { request_records :=
            Function.update st.request_records client_ip
              ((st.request_records client_ip).filter fun t => now - cfg.window_size < t),
          blocked_clients :=
            Function.update st.blocked_clients client_ip (some (now + cfg.block_time)) }) := by
  unfold check_rate_limit applicableLimit at *
  rw [if_pos h]

theorem check_rate_limit_ok (cfg : RateLimiterConfig)
    (is_authenticated : Bool) (now : ℤ) (client_ip : String)
    (st : RateLimiterState)
    (h : ((st.request_records client_ip).filter
        (fun t => now - cfg.window_size < t)).length <
      applicableLimit cfg is_authenticated) :
    check_rate_limit cfg is_authenticated now client_ip st =
      ((false, 0),
        { st with request_records :=
            Function.update st.request_records client_ip ((st.request_records client_ip).filter fun t => now - cfg.window_size < t) }) := by
  unfold check_rate_limit applicableLimit at *
  rw [if_neg (by omega)]

theorem count_filter_window (l : List ℤ) (w x : ℤ) :
    ((l.filter fun t => w < t).count x) = if w < x then l.count x else 0 := by
  by_cases hx : w < x
  · rw [if_pos hx]
    exact List.count_filter (by simpa using hx)
  · rw [if_neg hx]
    refine List.count_eq_zero.mpr fun hmem => ?_
    rcases List.mem_filter.mp hmem with ⟨-, hdec⟩
    exact hx (by simpa using hdec)

theorem rate_limiter_step_blocked (cfg : RateLimiterConfig)
    (is_authenticated : Bool) (now : ℤ) (client_ip : String)
    (st : RateLimiterState)
    (hbb : (is_client_blocked now client_ip st).1.1 = true) :
    (rate_limiter_step cfg is_authenticated now client_ip st).1.1 = false ∧
    (rate_limiter_step cfg is_authenticated now client_ip st).2.request_records client_ip =
      st.request_records client_ip := by
  unfold rate_limiter_step
  simp [hbb, is_client_blocked_records]

theorem rate_limiter_step_denied (cfg : RateLimiterConfig)
    (is_authenticated : Bool) (now : ℤ) (client_ip : String)
    (st : RateLimiterState)
    (hnb : (is_client_blocked now client_ip st).1.1 = false)
    (hex : applicableLimit cfg is_authenticated ≤
      ((st.request_records client_ip).filter fun t => now - cfg.window_size < t).length) :
    (rate_limiter_step cfg is_authenticated now client_ip st).1 = (false, cfg.block_time) ∧
    (rate_limiter_step cfg is_authenticated now client_ip st).2.request_records client_ip =
      (st.request_records client_ip).filter fun t => now - cfg.window_size < t := by
  have hrec := is_client_blocked_records now client_ip st
  have hex' : applicableLimit cfg is_authenticated ≤
      (((is_client_blocked now client_ip st).2.request_records client_ip).filter
        fun t => now - cfg.window_size < t).length := by
    rw [hrec]; exact hex
  unfold rate_limiter_step
  simp only [hnb, Bool.false_eq_true, if_false,
    check_rate_limit_exceeded cfg is_authenticated now client_ip
      (is_client_blocked now client_ip st).2 hex', if_true]
  exact ⟨trivial, by rw [Function.update_same, hrec]⟩

theorem rate_limiter_step_allowed (cfg : RateLimiterConfig)
    (is_authenticated : Bool) (now : ℤ) (client_ip : String)
    (st : RateLimiterState)
    (hnb : (is_client_blocked now client_ip st).1.1 = false)
    (hok : ((st.request_records client_ip).filter fun t => now - cfg.window_size < t).length <
      applicableLimit cfg is_authenticated) :
    (rate_limiter_step cfg is_authenticated now client_ip st).1 = (true, 0) ∧
    (rate_limiter_step cfg is_authenticated now client_ip st).2.request_records client_ip =
      ((st.request_records client_ip).filter fun t => now - cfg.window_size < t) ++ [now] := by
  have hrec := is_client_blocked_records now client_ip st
  have hok' : (((is_client_blocked now client_ip st).2.request_records client_ip).filter
      fun t => now - cfg.window_size < t).length <
      applicableLimit cfg is_authenticated := by
    rw [hrec]; exact hok
  unfold rate_limiter_step
  simp only [hnb, Bool.false_eq_true, if_false,
    check_rate_limit_ok cfg is_authenticated now client_ip
      (is_client_blocked now client_ip st).2 hok']
  refine ⟨trivial, ?_⟩
  unfold record_request
  simp [Function.update_same, hrec]

theorem rate_limiter_step_inv (cfg : RateLimiterConfig) (is_authenticated : Bool)
    (client_ip : String) (st : RateLimiterState) (acc : List ℤ) (t₀ now : ℤ)
    (hInv : WindowInv cfg (applicableLimit cfg is_authenticated) client_ip st acc t₀)
    (hle : t₀ ≤ now) :
    WindowInv cfg (applicableLimit cfg is_authenticated) client_ip
      (rate_limiter_step cfg is_authenticated now client_ip st).2
      (if (rate_limiter_step cfg is_authenticated now client_ip st).1.1 then acc ++ [now]
        else acc)
      now := by
  by_cases hbb : (is_client_blocked now client_ip st).1.1
  · obtain ⟨h1, h2⟩ := rate_limiter_step_blocked cfg is_authenticated now client_ip st hbb
    rw [h1]
    simp only [Bool.false_eq_true, if_false]
    refine ⟨?_, ?_, ?_, ?_, hInv.window_le⟩
    · intro x; rw [h2]; exact hInv.count_le x
    · intro x hx; rw [h2]; exact hInv.recent_ge x (by omega)
    · intro x hx; rw [h2] at hx; exact le_trans (hInv.bounded_rec x hx) hle
    · intro x hx; exact le_trans (hInv.bounded_acc x hx) hle
  · have hnb : (is_client_blocked now client_ip st).1.1 = false :=
      Bool.not_eq_true _ ▸ eq_false_of_ne_true hbb
    have hacc_eq : ∀ x : ℤ, now - cfg.window_size < x →
        (((st.request_records client_ip).filter fun t => now - cfg.window_size < t).count x) =
          acc.count x := by
      intro x hx
      rw [count_filter_window, if_pos hx]
      exact le_antisymm (hInv.count_le x) (hInv.recent_ge x (by omega))
    have hcounts : ∀ x : ℤ,
        (((st.request_records client_ip).filter fun t => now - cfg.window_size < t).count x) =
          ((acc.filter fun t => now - cfg.window_size < t).count x) := by
      intro x
      rw [count_filter_window, count_filter_window]
      by_cases hx : now - cfg.window_size < x
      · rw [if_pos hx, if_pos hx]
        exact le_antisymm (hInv.count_le x) (hInv.recent_ge x (by omega))
      · rw [if_neg hx, if_neg hx]
    have hlen : ((st.request_records client_ip).filter fun t => now - cfg.window_size < t).length =
        ((acc.filter fun t => now - cfg.window_size < t).length) :=
      (List.perm_iff_count.mpr hcounts).length_eq
    by_cases hex : applicableLimit cfg is_authenticated ≤
        ((st.request_records client_ip).filter fun t => now - cfg.window_size < t).length
    · -- window limit exceeded: denial, records pruned, nothing appended
      obtain ⟨h1, h2⟩ := rate_limiter_step_denied cfg is_authenticated now client_ip st hnb hex
      have h11 : (rate_limiter_step cfg is_authenticated now client_ip st).1.1 = false := by
        rw [h1]
      rw [h11]
      simp only [Bool.false_eq_true, if_false]
      refine ⟨?_, ?_, ?_, ?_, hInv.window_le⟩
      · intro x
        rw [h2, count_filter_window]
        by_cases hx : now - cfg.window_size < x
        · rw [if_pos hx]; exact hInv.count_le x
        · rw [if_neg hx]; exact Nat.zero_le _
      · intro x hx
        rw [h2, count_filter_window, if_pos hx]
        exact hInv.recent_ge x (by omega)
      · intro x hx
        rw [h2] at hx
        exact le_trans (hInv.bounded_rec x (List.mem_filter.mp hx).1) hle
      · intro x hx; exact le_trans (hInv.bounded_acc x hx) hle
    · -- under the limit: acceptance, `now` appended to both lists
      obtain ⟨h1, h2⟩ := rate_limiter_step_allowed cfg is_authenticated now client_ip st hnb
        (by omega)
      have h11 : (rate_limiter_step cfg is_authenticated now client_ip st).1.1 = true := by
        rw [h1]
      rw [h11]
      simp only [if_true]
      refine ⟨?_, ?_, ?_, ?_, ?_⟩
      · intro x
        rw [h2, List.count_append, List.count_append]
        refine Nat.add_le_add ?_ (le_refl _)
        rw [count_filter_window]
        by_cases hx : now - cfg.window_size < x
        · rw [if_pos hx]; exact hInv.count_le x
        · rw [if_neg hx]; exact Nat.zero_le _
      · intro x hx
        rw [h2, List.count_append, List.count_append, hacc_eq x hx]
      · intro x hx
        rw [h2] at hx
        rcases List.mem_append.mp hx with hx' | hx'
        · exact le_trans (hInv.bounded_rec x (List.mem_filter.mp hx').1) hle
        · rw [List.mem_singleton.mp hx']
      · intro x hx
        rcases List.mem_append.mp hx with hx' | hx'
        · exact le_trans (hInv.bounded_acc x hx') hle
        · rw [List.mem_singleton.mp hx']
      · intro a
        rw [List.countP_append, List.countP_singleton]
        by_cases hpn : inWindow cfg.window_size a now = true
        · rw [hpn, if_pos rfl]
          have hwin : a < now ∧ now ≤ a + cfg.window_size := by
            simpa [inWindow] using hpn
          have hmono : acc.countP (inWindow cfg.window_size a) ≤
              acc.countP fun t => decide (now - cfg.window_size < t) := by
            refine List.countP_mono_left fun x _ hpx => ?_
            have hx : a < x ∧ x ≤ a + cfg.window_size := by
              simpa [inWindow] using hpx
            exact decide_eq_true (by omega)
          have heq : (acc.countP fun t => decide (now - cfg.window_size < t)) =
              ((acc.filter fun t => now - cfg.window_size < t).length) :=
            List.countP_eq_length_filter _ _
          omega
        · have hpn' : inWindow cfg.window_size a now = false :=
            Bool.not_eq_true _ ▸ eq_false_of_ne_true hpn
          rw [hpn']
          simpa using hInv.window_le a

theorem run_requests_inv (cfg : RateLimiterConfig) (is_authenticated : Bool)
    (client_ip : String) :
    ∀ (inputs : List ℤ) (st : RateLimiterState) (acc : List ℤ) (t₀ : ℤ),
      WindowInv cfg (applicableLimit cfg is_authenticated) client_ip st acc t₀ →
      List.Chain (· ≤ ·) t₀ inputs →
      ∀ a : ℤ,
        ((acc ++ (run_requests cfg is_authenticated client_ip st inputs).2).countP
          (inWindow cfg.window_size a)) ≤ applicableLimit cfg is_authenticated := by
  intro inputs
  induction inputs with
  | nil =>
    intro st acc t₀ hInv _ a
    simpa [run_requests] using hInv.window_le a
  | cons now rest ih =>
    intro st acc t₀ hInv hchain a
    cases hchain with
    | cons hle hchain' =>
      have hstep := rate_limiter_step_inv cfg is_authenticated client_ip st acc t₀ now hInv hle
      by_cases hacc : (rate_limiter_step cfg is_authenticated now client_ip st).1.1
      · have hInv' : WindowInv cfg (applicableLimit cfg is_authenticated) client_ip
            (rate_limiter_step cfg is_authenticated now client_ip st).2 (acc ++ [now]) now := by
          rwa [if_pos hacc] at hstep
        have hres := ih (rate_limiter_step cfg is_authenticated now client_ip st).2
          (acc ++ [now]) now hInv' hchain' a
        rw [List.append_assoc, List.singleton_append] at hres
        simpa [run_requests, hacc] using hres
      · have hInv' : WindowInv cfg (applicableLimit cfg is_authenticated) client_ip
            (rate_limiter_step cfg is_authenticated now client_ip st).2 acc now := by
          rwa [if_neg hacc] at hstep
        have hres := ih (rate_limiter_step cfg is_authenticated now client_ip st).2
          acc now hInv' hchain' a
        simpa [run_requests, hacc] using hres

/-- **C1**: For every client and every (sequentially executed, time-monotone)
sequence of rate-limiter request steps, (i) the number of accepted requests
whose timestamps lie within any rolling window of `window_size` seconds
never exceeds the applicable limit (`anonymous_limit` for unauthenticated
requests, `authenticated_limit` for bearer-authenticated ones), and (ii) a
check that finds the pruned timestamp count at or above the limit denies
the request and records no timestamp for it (the stored list is exactly the
pruned list). -/
theorem c1_sliding_window_limit (cfg : RateLimiterConfig) (is_authenticated : Bool)
    (client_ip : String) (inputs : List ℤ)
    (hmono : List.Chain' (· ≤ ·) inputs) :
    (∀ a : ℤ,
      ((run_requests cfg is_authenticated client_ip RateLimiterState.init inputs).2.countP
        (inWindow cfg.window_size a)) ≤ applicableLimit cfg is_authenticated) ∧
    (∀ (st : RateLimiterState) (now : ℤ),
      (is_client_blocked now client_ip st).1.1 = false →
      applicableLimit cfg is_authenticated ≤
        ((st.request_records client_ip).filter fun t => now - cfg.window_size < t).length →
      (rate_limiter_step cfg is_authenticated now client_ip st).1.1 = false ∧
      (rate_limiter_step cfg is_authenticated now client_ip st).2.request_records client_ip =
        (st.request_records client_ip).filter fun t => now - cfg.window_size < t) := by
  constructor
  · intro a
    cases inputs with
    | nil => simp [run_requests]
    | cons now rest =>
      have hInv : WindowInv cfg (applicableLimit cfg is_authenticated) client_ip
          RateLimiterState.init [] now := by
        refine ⟨?_, ?_, ?_, ?_, ?_⟩ <;> intros <;> simp_all [RateLimiterState.init]
      have hchain : List.Chain (· ≤ ·) now (now :: rest) :=
        List.Chain.cons (le_refl now) hmono
      simpa using run_requests_inv cfg is_authenticated client_ip (now :: rest)
        RateLimiterState.init [] now hInv hchain a
  · intro st now hnb hex
    obtain ⟨h1, h2⟩ := rate_limiter_step_denied cfg is_authenticated now client_ip st hnb hex
    exact ⟨by rw [h1], h2⟩

/-- Witness for `c1_sliding_window_limit` at a concrete configuration
(anonymous limit 2, window 10) and request times `[0, 1, 2, 3]`. -/
theorem c1_sliding_window_limit_witness :
    ((run_requests ⟨2, 5, 10, 100⟩ false "client" RateLimiterState.init
      [0, 1, 2, 3]).2.countP (inWindow 10 0)) ≤ 2 :=
  (c1_sliding_window_limit ⟨2, 5, 10, 100⟩ false "client" [0, 1, 2, 3]
    (by norm_num [List.chain'_cons, List.chain'_singleton])).1 0

/-- **C6**: The punitive-block lifecycle of the rate limiter: (i) a client
that exceeds its quota gets a block entry at `now + block_time` and the
denial carries `retry_after = block_time`; (ii) while the entry exists and
`now < unblock_time`, every step is denied with
`retry_after = unblock_time - now` and the state is unchanged; (iii) that
retry-after value decreases as `now` advances; (iv) exactly once
`now ≥ unblock_time`, the entry is removed and the step proceeds to the
normal window check (it behaves exactly like a step on the unblocked
state). -/
theorem c6_block_lifecycle (cfg : RateLimiterConfig) (is_authenticated : Bool)
    (client_ip : String) :
    (∀ (st : RateLimiterState) (now : ℤ),
      (is_client_blocked now client_ip st).1.1 = false →
      applicableLimit cfg is_authenticated ≤
        ((st.request_records client_ip).filter fun t => now - cfg.window_size < t).length →
      (rate_limiter_step cfg is_authenticated now client_ip st).1 = (false, cfg.block_time) ∧
      (rate_limiter_step cfg is_authenticated now client_ip st).2.blocked_clients client_ip =
        some (now + cfg.block_time)) ∧
    (∀ (st : RateLimiterState) (unblock_time now : ℤ),
      st.blocked_clients client_ip = some unblock_time → now < unblock_time →
      rate_limiter_step cfg is_authenticated now client_ip st =
        ((false, unblock_time - now), st)) ∧
    (∀ (st : RateLimiterState) (unblock_time n₁ n₂ : ℤ),
      st.blocked_clients client_ip = some unblock_time → n₁ < n₂ → n₂ < unblock_time →
      (rate_limiter_step cfg is_authenticated n₂ client_ip st).1.2 <
        (rate_limiter_step cfg is_authenticated n₁ client_ip st).1.2) ∧
    (∀ (st : RateLimiterState) (unblock_time now : ℤ),
      st.blocked_clients client_ip = some unblock_time → unblock_time ≤ now →
      (is_client_blocked now client_ip st).2.blocked_clients client_ip = none ∧
      rate_limiter_step cfg is_authenticated now client_ip st =
        rate_limiter_step cfg is_authenticated now client_ip
          { st with blocked_clients := Function.update st.blocked_clients client_ip none }) := by
  have hstill : ∀ (st : RateLimiterState) (unblock_time now : ℤ),
      st.blocked_clients client_ip = some unblock_time → now < unblock_time →
      rate_limiter_step cfg is_authenticated now client_ip st =
        ((false, unblock_time - now), st) := by
    intro st ub now h hlt
    have hblk : is_client_blocked now client_ip st = ((true, ub - now), st) := by
      unfold is_client_blocked
      rw [h]
      simp only [ge_iff_le, if_neg (by omega : ¬ub ≤ now)]
    simp [rate_limiter_step, hblk]
  refine ⟨?_, hstill, ?_, ?_⟩
  · intro st now hnb hex
    have hrec := is_client_blocked_records now client_ip st
    have hex' : applicableLimit cfg is_authenticated ≤
        (((is_client_blocked now client_ip st).2.request_records client_ip).filter
          fun t => now - cfg.window_size < t).length := by
      rw [hrec]; exact hex
    unfold rate_limiter_step
    simp only [hnb, Bool.false_eq_true, if_false,
      check_rate_limit_exceeded cfg is_authenticated now client_ip
        (is_client_blocked now client_ip st).2 hex', if_true]
    exact ⟨trivial, by rw [Function.update_same]⟩
  · intro st ub n₁ n₂ h h12 h2u
    rw [hstill st ub n₁ h (by omega), hstill st ub n₂ h h2u]
    simp only
    omega
  · intro st ub now h hge
    have hblk : is_client_blocked now client_ip st =
        ((false, 0),
          { st with blocked_clients := Function.update st.blocked_clients client_ip none }) := by
      unfold is_client_blocked
      rw [h]
      simp only [ge_iff_le, if_pos hge]
    constructor
    · rw [hblk]
      exact Function.update_same client_ip none st.blocked_clients
    · conv_lhs => unfold rate_limiter_step
      conv_rhs => unfold rate_limiter_step
      rw [hblk]
      have hblk' : is_client_blocked now client_ip
          { st with blocked_clients := Function.update st.blocked_clients client_ip none } =
          ((false, 0),
            { st with blocked_clients := Function.update st.blocked_clients client_ip none }) := by
        unfold is_client_blocked
        simp [Function.update_same]
      rw [hblk']

/-- Witness for `c6_block_lifecycle`: a client blocked until time 100 is
denied at time 60 with retry-after 40 and state unchanged, gets a smaller
retry-after at time 70, is unblocked at time 100; and a client with one
recorded timestamp and anonymous limit 1 is denied with retry-after 100
and blocked until 106 when checked at time 6. -/
theorem c6_block_lifecycle_witness :
    (rate_limiter_step ⟨1, 5, 10, 100⟩ false 60 "c"
        ⟨fun _ => [], fun _ => some 100⟩ = ((false, 40), ⟨fun _ => [], fun _ => some 100⟩)) ∧
    ((rate_limiter_step ⟨1, 5, 10, 100⟩ false 70 "c" ⟨fun _ => [], fun _ => some 100⟩).1.2 <
      (rate_limiter_step ⟨1, 5, 10, 100⟩ false 60 "c" ⟨fun _ => [], fun _ => some 100⟩).1.2) ∧
    ((is_client_blocked 100 "c" ⟨fun _ => [], fun _ => some 100⟩).2.blocked_clients "c" =
      none) ∧
    ((rate_limiter_step ⟨1, 5, 10, 100⟩ false 6 "c" ⟨fun _ => [5], fun _ => none⟩).1 =
      (false, 100) ∧
     (rate_limiter_step ⟨1, 5, 10, 100⟩ false 6 "c"
        ⟨fun _ => [5], fun _ => none⟩).2.blocked_clients "c" = some 106) := by
  have h := c6_block_lifecycle ⟨1, 5, 10, 100⟩ false "c"
  refine ⟨?_, ?_, ?_, ?_⟩
  · have := h.2.1 ⟨fun _ => [], fun _ => some 100⟩ 100 60 rfl (by norm_num)
    simpa using this
  · exact h.2.2.1 ⟨fun _ => [], fun _ => some 100⟩ 100 60 70 rfl (by norm_num) (by norm_num)
  · exact (h.2.2.2 ⟨fun _ => [], fun _ => some 100⟩ 100 100 rfl (by norm_num)).1
  · have := h.1 ⟨fun _ => [5], fun _ => none⟩ 6 rfl (by norm_num [applicableLimit])
    simpa using this

/-! ## State-service claims -/

/-- **C9**: For every search identifier with no persisted record, each of
the four state mutations (`update_search_status`, `update_store_status`,
`update_attributes`, `update_result_count`) is a silent no-op: the store
is returned unchanged (so nothing is created, nothing is modified, and no
exception reaches the caller — the operations are total functions). -/
theorem c9_missing_record_noop (s : StateStore) (search_id : String)
    (hmiss : s search_id = none) :
    (∀ (status : SearchStatus) (now : ℤ),
      update_search_status s search_id status now = s) ∧
    (∀ (store : String) (status : SearchStatus) (time_ms : ℤ),
      update_store_status s search_id store status time_ms = s) ∧
    (∀ attributes : List AttributeRecognition,
      update_attributes s search_id attributes = s) ∧
    (∀ count : ℤ, update_result_count s search_id count = s) := by
  refine ⟨fun status now => ?_, fun store status time_ms => ?_, fun attributes => ?_,
    fun count => ?_⟩ <;>
    simp [update_search_status, update_store_status, update_attributes,
      update_result_count, hmiss]

/-- Witness for `c9_missing_record_noop` on the empty store. -/
theorem c9_missing_record_noop_witness :
    update_search_status (fun _ => none) "s1" SearchStatus.failed 5 = (fun _ => none) ∧
    update_result_count (fun _ => none) "s1" 3 = (fun _ => none) := by
  have h := c9_missing_record_noop (fun _ => none) "s1" rfl
  exact ⟨h.1 SearchStatus.failed 5, h.2.2.2 3⟩

theorem updateFirstStore_names (stores : List StoreState) (store : String)
    (status : SearchStatus) (time_ms : ℤ) :
    (updateFirstStore stores store status time_ms).map StoreState.name =
      stores.map StoreState.name := by
  induction stores with
  | nil => rfl
  | cons e rest ih =>
    unfold updateFirstStore
    by_cases he : e.name = store
    · simp [he]
    · simp [he, ih]

theorem updateFirstStore_no_match (stores : List StoreState) (store : String)
    (status : SearchStatus) (time_ms : ℤ)
    (h : ∀ e ∈ stores, e.name ≠ store) :
    updateFirstStore stores store status time_ms = stores := by
  induction stores with
  | nil => rfl
  | cons e rest ih =>
    unfold updateFirstStore
    rw [if_neg (h e (List.mem_cons_self e rest))]
    rw [ih fun x hx => h x (List.mem_cons_of_mem e hx)]

theorem updateFirstStore_first_match (before : List StoreState) (e : StoreState)
    (after : List StoreState) (store : String) (status : SearchStatus) (time_ms : ℤ)
    (hbefore : ∀ x ∈ before, x.name ≠ store) (he : e.name = store) :
    updateFirstStore (before ++ e :: after) store status time_ms =
      before ++ { e with status := status, time_ms := time_ms } :: after := by
  induction before with
  | nil =>
    unfold updateFirstStore
    simp [he]
  | cons b rest ih =>
    have hb : b.name ≠ store := hbefore b (List.mem_cons_self b rest)
    have ih' := ih fun x hx => hbefore x (List.mem_cons_of_mem b hx)
    simp only [List.cons_append]
    unfold updateFirstStore
    simp [hb, ih']

/-- **C10**: The `stores_searched` list of a persisted record is fixed at
`initialize_search` (one `processing` entry per requested store, in
order) and its membership is preserved by every operation:
`update_search_status`, `update_attributes` and `update_result_count`
leave it untouched; `update_store_status` preserves the entry names
(never adds or removes an entry), updates exactly the first entry whose
name matches, and leaves the list entirely unchanged when no entry
matches. -/
theorem c10_stores_searched_fixed (s : StateStore) (search_id : String)
    (record : SearchState) (hrec : s search_id = some record) :
    (∀ (stores : List String) (now : ℤ) (r : SearchState),
      initialize_search s search_id stores now search_id = some r →
      r.stores_searched = stores.map fun store =>
        { name := store, status := SearchStatus.processing, time_ms := 0 }) ∧
    (∀ (status : SearchStatus) (now : ℤ) (r : SearchState),
      update_search_status s search_id status now search_id = some r →
      r.stores_searched = record.stores_searched) ∧
    (∀ (attributes : List AttributeRecognition) (r : SearchState),
      update_attributes s search_id attributes search_id = some r →
      r.stores_searched = record.stores_searched) ∧
    (∀ (count : ℤ) (r : SearchState),
      update_result_count s search_id count search_id = some r →
      r.stores_searched = record.stores_searched) ∧
    (∀ (store : String) (status : SearchStatus) (time_ms : ℤ) (r : SearchState),
      update_store_status s search_id store status time_ms search_id = some r →
      r.stores_searched.map StoreState.name = record.stores_searched.map StoreState.name ∧
      ((∀ e ∈ record.stores_searched, e.name ≠ store) →
        r.stores_searched = record.stores_searched) ∧
      (∀ (before : List StoreState) (e : StoreState) (after : List StoreState),
        record.stores_searched = before ++ e :: after →
        (∀ x ∈ before, x.name ≠ store) → e.name = store →
        r.stores_searched =
          before ++ { e with status := status, time_ms := time_ms } :: after)) := by
  refine ⟨?_, ?_, ?_, ?_, ?_⟩
  · intro stores now r hr
    rw [initialize_search, Function.update_same] at hr
    cases hr
    rfl
  · intro status now r hr
    simp only [update_search_status, hrec, Function.update_same, Option.some_inj] at hr
    by_cases hterm : status = SearchStatus.completed ∨ status = SearchStatus.failed
    · rw [if_pos hterm] at hr
      rw [← hr]
    · rw [if_neg hterm] at hr
      rw [← hr]
  · intro attributes r hr
    simp only [update_attributes, hrec, Function.update_same, Option.some_inj] at hr
    rw [← hr]
  · intro count r hr
    simp only [update_result_count, hrec, Function.update_same, Option.some_inj] at hr
    rw [← hr]
  · intro store status time_ms r hr
    simp only [update_store_status, hrec, Function.update_same, Option.some_inj] at hr
    refine ⟨?_, ?_, ?_⟩
    · rw [← hr]
      exact updateFirstStore_names record.stores_searched store status time_ms
    · intro hnone
      rw [← hr]
      simp only
      rw [updateFirstStore_no_match record.stores_searched store status time_ms hnone]
    · intro before e after hsplit hbefore he
      rw [← hr]
      simp only
      rw [hsplit, updateFirstStore_first_match before e after store status time_ms hbefore he]

/-- Witness for `c10_stores_searched_fixed` on a two-store record: the
matching entry is updated in place, a non-matching update leaves the list
unchanged. -/
theorem c10_stores_searched_fixed_witness :
    ∃ r : SearchState,
      update_store_status sampleStore "s1" "asos" SearchStatus.completed 7 "s1" = some r ∧
      r.stores_searched = [
        { name := "zalando", status := SearchStatus.processing, time_ms := 0 },
        { name := "asos", status := SearchStatus.completed, time_ms := 7 }] := by
  have h := c10_stores_searched_fixed sampleStore "s1" sampleRecord (by simp [sampleStore])
  cases hcase : update_store_status sampleStore "s1" "asos" SearchStatus.completed 7 "s1" with
  | none => simp [update_store_status, sampleStore, Function.update_same] at hcase
  | some r =>
    refine ⟨r, rfl, ?_⟩
    have h5 := (h.2.2.2.2 "asos" SearchStatus.completed 7 r hcase).2.2
      [{ name := "zalando", status := SearchStatus.processing, time_ms := 0 }]
      { name := "asos", status := SearchStatus.processing, time_ms := 0 }
      [] (by simp [sampleRecord]) (by simp) rfl
    simpa using h5

/-! ## Single-operation spec lemmas for the state service -/

theorem initialize_search_spec (s : StateStore) (search_id : String)
    (stores : List String) (now : ℤ) :
    initialize_search s search_id stores now search_id = some
      { search_id := search_id
        status := SearchStatus.processing
        start_time := now
        end_time := none
        elapsed_time_ms := 0
        stores_searched := stores.map (fun store =>
          { name := store, status := SearchStatus.processing, time_ms := 0 })
        attributes_recognized := []
        result_count := 0 } := by
  rw [initialize_search, Function.update_same]

theorem update_attributes_spec (s : StateStore) (search_id : String)
    (attributes : List AttributeRecognition) (r : SearchState)
    (h : s search_id = some r) :
    update_attributes s search_id attributes search_id =
      some { r with attributes_recognized := attributes } := by
  simp only [update_attributes, h, Function.update_same]

theorem update_result_count_spec (s : StateStore) (search_id : String)
    (count : ℤ) (r : SearchState) (h : s search_id = some r) :
    update_result_count s search_id count search_id =
      some { r with result_count := count } := by
  simp only [update_result_count, h, Function.update_same]

theorem update_store_status_spec (s : StateStore) (search_id store : String)
    (status : SearchStatus) (time_ms : ℤ) (r : SearchState)
    (h : s search_id = some r) :
    update_store_status s search_id store status time_ms search_id =
      some { r with stores_searched :=
        updateFirstStore r.stores_searched store status time_ms } := by
  simp only [update_store_status, h, Function.update_same]

theorem update_search_status_terminal_spec (s : StateStore) (search_id : String)
    (status : SearchStatus) (now : ℤ) (r : SearchState) (h : s search_id = some r)
    (hterm : status = SearchStatus.completed ∨ status = SearchStatus.failed) :
    update_search_status s search_id status now search_id =
      some { r with status := status, end_time := some now, elapsed_time_ms := now - r.start_time } := by
  simp only [update_search_status, h]
  rw [if_pos hterm, Function.update_same]

theorem update_store_entry (s : StateStore) (search_id store : String)
    (status : SearchStatus) (time_ms : ℤ) (r : SearchState)
    (done rest' : List StoreState) (e : StoreState)
    (h : s search_id = some r) (hsplit : r.stores_searched = done ++ e :: rest')
    (hdone : ∀ x ∈ done, x.name ≠ store) (he : e.name = store) :
    update_store_status s search_id store status time_ms search_id =
      some { r with stores_searched :=
        done ++ { e with status := status, time_ms := time_ms } :: rest' } := by
  rw [update_store_status_spec s search_id store status time_ms r h, hsplit,
    updateFirstStore_first_match done e rest' store status time_ms hdone he]

theorem update_store_status_present (s : StateStore) (search_id store : String)
    (status : SearchStatus) (time_ms : ℤ) (hpres : ∃ r, s search_id = some r) :
    ∃ r', update_store_status s search_id store status time_ms search_id = some r' := by
  obtain ⟨r, h⟩ := hpres
  exact ⟨_, update_store_status_spec s search_id store status time_ms r h⟩

theorem process_stores_present (o : ProcessOracles) (search_id : String) :
    ∀ (pending : List String) (s : StateStore) (total : ℤ),
      (∃ r, s search_id = some r) →
      ∃ r', (process_stores o search_id pending s total).1 search_id = some r' := by
  intro pending
  induction pending with
  | nil =>
    intro s total hpres
    simpa [process_stores] using hpres
  | cons store rest ih =>
    intro s total hpres
    have h₁ := update_store_status_present s search_id store SearchStatus.processing 0 hpres
    unfold process_stores
    cases hsearch : o.search_store_result store with
    | error e =>
      have h₂ := update_store_status_present _ search_id store SearchStatus.failed 0 h₁
      exact ih _ total h₂
    | ok products =>
      have h₂ := update_store_status_present _ search_id store SearchStatus.completed
        (o.store_search_time_ms store) h₁
      exact ih _ (total + products.length) h₂

theorem update_search_status_failed_terminal (s : StateStore) (search_id : String)
    (now : ℤ) (hpres : ∃ r, s search_id = some r) :
    ∃ r', update_search_status s search_id SearchStatus.failed now search_id = some r' ∧
      r'.status = SearchStatus.failed := by
  obtain ⟨r, h⟩ := hpres
  exact ⟨_, update_search_status_terminal_spec s search_id SearchStatus.failed now r h
    (Or.inr rfl), rfl⟩

/-- **C2**: For every submitted search (whose initial record `process_search`
persists via `initialize_search`), whatever the collaborators do —
including any of them raising an unexpected exception at any stage — the
persisted record ends in a terminal status (`completed` or `failed`),
never `processing`. -/
theorem c2_terminal_status (o : ProcessOracles) (stores : List String)
    (search_id : String) (now : ℤ) (s : StateStore) :
    ∃ r, process_search o stores search_id now s search_id = some r ∧
      (r.status = SearchStatus.completed ∨ r.status = SearchStatus.failed) := by
  have hpres₁ : ∃ r, initialize_search s search_id stores now search_id = some r :=
    ⟨_, initialize_search_spec s search_id stores now⟩
  cases himg : o.save_image_result with
  | error e =>
    obtain ⟨r', hr', hst⟩ := update_search_status_failed_terminal _ search_id now hpres₁
    simp only [process_search, process_search_body, himg]
    exact ⟨r', hr', Or.inr hst⟩
  | ok imgres =>
    cases imgres with
    | none =>
      obtain ⟨r', hr', hst⟩ := update_search_status_failed_terminal _ search_id now hpres₁
      simp only [process_search, process_search_body, himg]
      exact ⟨r', hr', Or.inr hst⟩
    | some image_url =>
      cases hana : o.analyze_result with
      | error e =>
        obtain ⟨r', hr', hst⟩ := update_search_status_failed_terminal _ search_id now hpres₁
        simp only [process_search, process_search_body, himg, hana]
        exact ⟨r', hr', Or.inr hst⟩
      | ok ares =>
        obtain ⟨attributes, analysis_time_ms⟩ := ares
        obtain ⟨r₁, h₁⟩ := hpres₁
        have hpres₂ : ∃ r, update_attributes (initialize_search s search_id stores now)
            search_id attributes search_id = some r :=
          ⟨_, update_attributes_spec _ search_id attributes r₁ h₁⟩
        cases hattr : o.save_attributes_result with
        | error e =>
          obtain ⟨r', hr', hst⟩ := update_search_status_failed_terminal _ search_id now hpres₂
          simp only [process_search, process_search_body, himg, hana, hattr]
          exact ⟨r', hr', Or.inr hst⟩
        | ok u =>
          have hpres₃ : ∃ r, (process_stores o search_id stores
              (update_attributes (initialize_search s search_id stores now)
                search_id attributes) 0).1 search_id = some r :=
            process_stores_present o search_id stores
              (update_attributes (initialize_search s search_id stores now)
                search_id attributes) 0 hpres₂
          obtain ⟨r₃, h₃⟩ := hpres₃
          have h₄ := update_result_count_spec _ search_id
            (process_stores o search_id stores
              (update_attributes (initialize_search s search_id stores now)
                search_id attributes) 0).2 r₃ h₃
          have h₅ := update_search_status_terminal_spec _ search_id
            SearchStatus.completed now _ h₄ (Or.inl rfl)
          cases hmet : o.save_metrics_result with
          | error e =>
            obtain ⟨r', hr', hst⟩ := update_search_status_failed_terminal _ search_id now
              ⟨_, h₅⟩
            simp only [process_search, process_search_body, himg, hana, hattr, hmet]
            exact ⟨r', hr', Or.inr hst⟩
          | ok u' =>
            simp only [process_search, process_search_body, himg, hana, hattr, hmet]
            exact ⟨_, h₅, Or.inl rfl⟩

/-- Witness (C2 has no `Prop` hypothesis, but fixing one concrete run): with
every collaborator raising, the persisted record ends `failed`. -/
theorem c2_terminal_status_witness :
    ∃ r, process_search
        { save_image_result := Except.error ()
          analyze_result := Except.error ()
          save_attributes_result := Except.error ()
          search_store_result := fun _ => Except.error ()
          store_search_time_ms := fun _ => 0
          save_store_search_result := fun _ _ => false
          save_metrics_result := Except.error () }
        ["zalando"] "s1" 0 (fun _ => none) "s1" = some r ∧
      (r.status = SearchStatus.completed ∨ r.status = SearchStatus.failed) :=
  c2_terminal_status _ ["zalando"] "s1" 0 (fun _ => none)

theorem process_stores_spec (o : ProcessOracles) (search_id : String) :
    ∀ (pending : List String) (done : List StoreState) (s : StateStore) (total : ℤ)
      (r : SearchState),
      s search_id = some r →
      r.stores_searched = done ++ pending.map (fun n =>
        { name := n, status := SearchStatus.processing, time_ms := 0 }) →
      (∀ e ∈ done, e.name ∉ pending) →
      pending.Nodup →
      ∃ s', process_stores o search_id pending s total =
          (s', total + (pending.map (store_count o)).sum) ∧
        s' search_id = some { r with stores_searched := done ++ pending.map (store_outcome o) } := by
  intro pending
  induction pending with
  | nil =>
    intro done s total r hs hsplit _ _
    refine ⟨s, by simp [process_stores], ?_⟩
    rw [hs]
    have hd : done ++ List.map (store_outcome o) [] = r.stores_searched := by
      rw [hsplit]; simp
    rw [hd]
  | cons store rest ih =>
    intro done s total r hs hsplit hdisj hnodup
    have hstore_rest : store ∉ rest := (List.nodup_cons.mp hnodup).1
    have hrest_nodup : rest.Nodup := (List.nodup_cons.mp hnodup).2
    have hdone_ne : ∀ x ∈ done, x.name ≠ store := by
      intro x hx
      have := hdisj x hx
      simp only [List.mem_cons, not_or] at this
      exact this.1
    have hsplit' : r.stores_searched = done ++
        { name := store, status := SearchStatus.processing, time_ms := 0 } ::
        rest.map (fun n => { name := n, status := SearchStatus.processing, time_ms := 0 }) := by
      simpa using hsplit
    -- marking the store `processing` rewrites its entry to the same value
    have h₁ := update_store_entry s search_id store SearchStatus.processing 0 r done
      (rest.map fun n => { name := n, status := SearchStatus.processing, time_ms := 0 })
      { name := store, status := SearchStatus.processing, time_ms := 0 }
      hs hsplit' hdone_ne rfl
    rw [← hsplit'] at h₁
    have hdisj_rest : ∀ (out : StoreState), out.name = store →
        ∀ e ∈ done ++ [out], e.name ∉ rest := by
      intro out hout e he
      rcases List.mem_append.mp he with he' | he'
      · have := hdisj e he'
        simp only [List.mem_cons, not_or] at this
        exact this.2
      · rw [List.mem_singleton.mp he', hout]
        exact hstore_rest
    cases hsearch : o.search_store_result store with
    | error err =>
      -- store search raised: marked failed, loop continues
      have h₂ := update_store_entry _ search_id store SearchStatus.failed 0
        { r with stores_searched := r.stores_searched } done
        (rest.map fun n => { name := n, status := SearchStatus.processing, time_ms := 0 })
        { name := store, status := SearchStatus.processing, time_ms := 0 }
        h₁ hsplit' hdone_ne rfl
      have hout : store_outcome o store =
          { name := store, status := SearchStatus.failed, time_ms := 0 } := by
        simp [store_outcome, hsearch]
      obtain ⟨s', hrun, hstate⟩ := ih (done ++ [store_outcome o store]) _ total
        { r with stores_searched := done ++ ⟨store, SearchStatus.failed, 0⟩ :: rest.map fun n => ⟨n, SearchStatus.processing, 0⟩ }
        h₂ (by rw [hout]; simp) (hdisj_rest _ (by rw [hout])) hrest_nodup
      refine ⟨s', ?_, ?_⟩
      · rw [process_stores]
        simp only [hsearch]
        rw [hrun]
        have : store_count o store = 0 := by simp [store_count, hsearch]
        simp [this]
      · rw [hstate]
        congr 1
        simp [hout]
    | ok products =>
      -- the store search returned: entry `completed`, count added; the
      -- repository write cannot raise and its flag is discarded
      have h₂ := update_store_entry _ search_id store SearchStatus.completed
        (o.store_search_time_ms store)
        { r with stores_searched := r.stores_searched } done
        (rest.map fun n => { name := n, status := SearchStatus.processing, time_ms := 0 })
        { name := store, status := SearchStatus.processing, time_ms := 0 }
        h₁ hsplit' hdone_ne rfl
      have hcnt : store_count o store = products.length := by
        simp [store_count, hsearch]
      have hout : store_outcome o store =
          { name := store, status := SearchStatus.completed,
            time_ms := o.store_search_time_ms store } := by
        simp [store_outcome, hsearch]
      obtain ⟨s', hrun, hstate⟩ := ih (done ++ [store_outcome o store]) _
        (total + products.length)
        { r with stores_searched := done ++ ⟨store, SearchStatus.completed, o.store_search_time_ms store⟩ :: rest.map fun n => ⟨n, SearchStatus.processing, 0⟩ }
        h₂ (by rw [hout]; simp) (hdisj_rest _ (by rw [hout])) hrest_nodup
      refine ⟨s', ?_, ?_⟩
      · rw [process_stores]
        simp only [hsearch]
        rw [hrun]
        simp only [List.map_cons, List.sum_cons, hcnt]
        refine congrArg (Prod.mk s') ?_
        ring
      · rw [hstate]
        congr 1
        simp [hout]

theorem process_search_run_spec (o : ProcessOracles) (stores : List String)
    (search_id : String) (now : ℤ) (s : StateStore) (image_url : String)
    (attributes : List AttributeRecognition) (analysis_time_ms : ℤ)
    (himg : o.save_image_result = Except.ok (some image_url))
    (hana : o.analyze_result = Except.ok (attributes, analysis_time_ms))
    (hattr : o.save_attributes_result = Except.ok ())
    (hnodup : stores.Nodup) :
    ∃ r, process_search o stores search_id now s search_id = some r ∧
      r.stores_searched = stores.map (store_outcome o) ∧
      r.attributes_recognized = attributes ∧
      r.result_count = (stores.map (store_count o)).sum ∧
      (r.status = SearchStatus.completed ∨ r.status = SearchStatus.failed) ∧
      (o.save_metrics_result = Except.ok () → r.status = SearchStatus.completed) := by
  have h₁ := initialize_search_spec s search_id stores now
  have h₂ := update_attributes_spec (initialize_search s search_id stores now)
    search_id attributes _ h₁
  obtain ⟨s₃, hrun, hstate⟩ := process_stores_spec o search_id stores []
    (update_attributes (initialize_search s search_id stores now) search_id attributes) 0 _
    h₂ (by simp) (by simp) hnodup
  have h₄ := update_result_count_spec s₃ search_id
    (0 + (stores.map (store_count o)).sum) _ hstate
  have h₅ := update_search_status_terminal_spec _ search_id SearchStatus.completed now _ h₄
    (Or.inl rfl)
  cases hmet : o.save_metrics_result with
  | ok u =>
    have hfinal : process_search o stores search_id now s search_id =
        update_search_status (update_result_count s₃ search_id
          (0 + (stores.map (store_count o)).sum)) search_id SearchStatus.completed now
          search_id := by
      simp only [process_search, process_search_body, himg, hana, hattr, hrun, hmet]
    rw [hfinal, h₅]
    exact ⟨_, rfl, by simp, rfl, by simp, Or.inl rfl, fun _ => rfl⟩
  | error e =>
    have h₆ := update_search_status_terminal_spec _ search_id SearchStatus.failed now _ h₅
      (Or.inr rfl)
    have hfinal : process_search o stores search_id now s search_id =
        update_search_status (update_search_status (update_result_count s₃ search_id
          (0 + (stores.map (store_count o)).sum)) search_id SearchStatus.completed now)
          search_id SearchStatus.failed now search_id := by
      simp only [process_search, process_search_body, himg, hana, hattr, hrun, hmet]
    rw [hfinal, h₆]
    refine ⟨_, rfl, by simp, rfl, by simp, Or.inr rfl, fun hcontra => ?_⟩
    cases hcontra

/-- **C4**: A store-search collaborator error for one store marks exactly
that store's sub-status `failed`, processing continues for every remaining
store (the final record carries one terminal entry per requested store,
each determined by that store's own collaborator results alone), and the
overall search still reaches a terminal status. -/
theorem c4_store_failure_isolation (o : ProcessOracles) (stores : List String)
    (search_id : String) (now : ℤ) (s : StateStore) (image_url : String)
    (attributes : List AttributeRecognition) (analysis_time_ms : ℤ)
    (himg : o.save_image_result = Except.ok (some image_url))
    (hana : o.analyze_result = Except.ok (attributes, analysis_time_ms))
    (hattr : o.save_attributes_result = Except.ok ())
    (hnodup : stores.Nodup) :
    (∃ r, process_search o stores search_id now s search_id = some r ∧
      (r.status = SearchStatus.completed ∨ r.status = SearchStatus.failed) ∧
      r.stores_searched = stores.map (store_outcome o)) ∧
    (∀ st, o.search_store_result st = Except.error () →
      store_outcome o st = { name := st, status := SearchStatus.failed, time_ms := 0 }) ∧
    (∀ (o' : ProcessOracles) (st : String),
      o'.search_store_result st = o.search_store_result st →
      o'.store_search_time_ms st = o.store_search_time_ms st →
      store_outcome o' st = store_outcome o st) := by
  refine ⟨?_, ?_, ?_⟩
  · obtain ⟨r, hr, hstores, -, -, hterm, -⟩ := process_search_run_spec o stores search_id
      now s image_url attributes analysis_time_ms himg hana hattr hnodup
    exact ⟨r, hr, hterm, hstores⟩
  · intro st hst
    simp [store_outcome, hst]
  · intro o' st h1 h2
    simp [store_outcome, h1, h2]

/-- Witness for `c4_store_failure_isolation`: two stores, `"zalando"` raising
and `"modivo"` succeeding with two products. -/
theorem c4_store_failure_isolation_witness :
    (∃ r, process_search failingStoreOracle ["zalando", "modivo"] "s1" 0
        (fun _ => none) "s1" = some r ∧
      (r.status = SearchStatus.completed ∨ r.status = SearchStatus.failed) ∧
      r.stores_searched = ["zalando", "modivo"].map (store_outcome failingStoreOracle)) ∧
    store_outcome failingStoreOracle "zalando" =
      { name := "zalando", status := SearchStatus.failed, time_ms := 0 } ∧
    store_outcome failingStoreOracle "modivo" =
      { name := "modivo", status := SearchStatus.completed, time_ms := 50 } := by
  have h := c4_store_failure_isolation failingStoreOracle ["zalando", "modivo"] "s1" 0
    (fun _ => none) "temp/s1.jpg" [] 100 rfl rfl rfl (by simp)
  refine ⟨h.1, h.2.1 "zalando" (by simp [failingStoreOracle]), ?_⟩
  simp [store_outcome, failingStoreOracle]

theorem claimed_result_count_outcomes (o : ProcessOracles) :
    ∀ stores : List String,
      claimed_result_count o (stores.map (store_outcome o)) =
        (stores.map (store_count o)).sum := by
  intro stores
  induction stores with
  | nil => rfl
  | cons store rest ih =>
    cases hsearch : o.search_store_result store with
    | error e =>
      have hout : store_outcome o store =
          { name := store, status := SearchStatus.failed, time_ms := 0 } := by
        simp [store_outcome, hsearch]
      have hcnt : store_count o store = 0 := by simp [store_count, hsearch]
      unfold claimed_result_count at *
      simp only [List.map_cons, List.sum_cons, hcnt, zero_add, hout]
      rw [List.filter_cons_of_neg (by simp)]
      exact ih
    | ok products =>
      have hout : store_outcome o store =
          { name := store, status := SearchStatus.completed,
            time_ms := o.store_search_time_ms store } := by
        simp [store_outcome, hsearch]
      unfold claimed_result_count at *
      simp only [List.map_cons, List.sum_cons, hout]
      rw [List.filter_cons_of_pos (by simp)]
      simp only [List.map_cons, List.sum_cons]
      rw [ih]

/-- **C3**: For every search over distinct requested stores that reaches
`completed` status, `result_count` equals the sum of the lengths of the
product lists returned by exactly those stores whose sub-status reached
`completed`; stores whose sub-status is `failed` contribute zero (their
search raised, so they returned no products).  Holds for every
collaborator behaviour: the per-store repository write catches its
exceptions internally, so a store's sub-status is `completed` exactly
when its search returned. -/
theorem c3_result_count (o : ProcessOracles) (stores : List String)
    (search_id : String) (now : ℤ) (s : StateStore)
    (hnodup : stores.Nodup) :
    ∃ r, process_search o stores search_id now s search_id = some r ∧
      (r.status = SearchStatus.completed →
        r.result_count = claimed_result_count o r.stores_searched) := by
  have hpres₁ : ∃ r, initialize_search s search_id stores now search_id = some r :=
    ⟨_, initialize_search_spec s search_id stores now⟩
  cases himg : o.save_image_result with
  | error e =>
    obtain ⟨r', hr', hst⟩ := update_search_status_failed_terminal _ search_id now hpres₁
    simp only [process_search, process_search_body, himg]
    refine ⟨r', hr', fun hc => ?_⟩
    rw [hst] at hc
    cases hc
  | ok imgres =>
    cases imgres with
    | none =>
      obtain ⟨r', hr', hst⟩ := update_search_status_failed_terminal _ search_id now hpres₁
      simp only [process_search, process_search_body, himg]
      refine ⟨r', hr', fun hc => ?_⟩
      rw [hst] at hc
      cases hc
    | some image_url =>
      cases hana : o.analyze_result with
      | error e =>
        obtain ⟨r', hr', hst⟩ := update_search_status_failed_terminal _ search_id now hpres₁
        simp only [process_search, process_search_body, himg, hana]
        refine ⟨r', hr', fun hc => ?_⟩
        rw [hst] at hc
        cases hc
      | ok ares =>
        obtain ⟨attributes, analysis_time_ms⟩ := ares
        obtain ⟨r₁, h₁⟩ := hpres₁
        have hpres₂ : ∃ r, update_attributes (initialize_search s search_id stores now)
            search_id attributes search_id = some r :=
          ⟨_, update_attributes_spec _ search_id attributes r₁ h₁⟩
        cases hattr : o.save_attributes_result with
        | error e =>
          obtain ⟨r', hr', hst⟩ := update_search_status_failed_terminal _ search_id now hpres₂
          simp only [process_search, process_search_body, himg, hana, hattr]
          refine ⟨r', hr', fun hc => ?_⟩
          rw [hst] at hc
          cases hc
        | ok u =>
          obtain ⟨r, hr, hstores, -, hcount, -, -⟩ := process_search_run_spec o stores
            search_id now s image_url attributes analysis_time_ms himg hana hattr hnodup
          refine ⟨r, hr, fun _ => ?_⟩
          rw [hcount, hstores, claimed_result_count_outcomes o stores]

/-- Witness for `c3_result_count`: one failing and one succeeding store; the
record completes with `result_count` equal to the completed-store sum. -/
theorem c3_result_count_witness :
    ∃ r, process_search failingStoreOracle ["zalando", "modivo"] "s1" 0
        (fun _ => none) "s1" = some r ∧
      (r.status = SearchStatus.completed →
        r.result_count = claimed_result_count failingStoreOracle r.stores_searched) :=
  c3_result_count failingStoreOracle ["zalando", "modivo"] "s1" 0 (fun _ => none)
    (by simp)


/-- **C7**: An analyzer failure — missing API credentials or an exception
during analysis, both caught inside `analyze_clothing_image` — yields an
empty attribute list, and the pipeline continues: the empty list is
persisted into the record's `attributes_recognized`, the store searches
still run (the record carries one terminal entry per requested store),
and the search completes when the remaining collaborators succeed. -/
theorem c7_analyzer_failure_zero_attributes (vo : VisionOracle)
    (o : ProcessOracles) (stores : List String) (search_id : String) (now : ℤ)
    (s : StateStore) (image_url : String)
    (hvfail : vo.has_api_key = false ∨ vo.api_response = Except.error ())
    (hana : o.analyze_result = Except.ok (analyze_clothing_image vo))
    (himg : o.save_image_result = Except.ok (some image_url))
    (hattr : o.save_attributes_result = Except.ok ())
    (hnodup : stores.Nodup) :
    (analyze_clothing_image vo).1 = [] ∧
    ∃ r, process_search o stores search_id now s search_id = some r ∧
      r.attributes_recognized = [] ∧
      r.stores_searched = stores.map (store_outcome o) ∧
      (o.save_metrics_result = Except.ok () → r.status = SearchStatus.completed) := by
  have hempty : (analyze_clothing_image vo).1 = [] := by
    rcases hvfail with h | h
    · simp [analyze_clothing_image, h]
    · by_cases hk : vo.has_api_key = false
      · simp [analyze_clothing_image, hk]
      · simp [analyze_clothing_image, hk, h]
  refine ⟨hempty, ?_⟩
  have hana' : o.analyze_result =
      Except.ok ((analyze_clothing_image vo).1, (analyze_clothing_image vo).2) := by
    rw [hana]
  obtain ⟨r, hr, hstores, hattrs, -, -, hcompl⟩ := process_search_run_spec o stores
    search_id now s image_url (analyze_clothing_image vo).1
    (analyze_clothing_image vo).2 himg hana' hattr hnodup
  refine ⟨r, hr, ?_, hstores, hcompl⟩
  rw [hattrs, hempty]

/-- Witness for `c7_analyzer_failure_zero_attributes`: no API key, one
store succeeding with one product. -/
theorem c7_analyzer_failure_zero_attributes_witness :
    (analyze_clothing_image noKeyVision).1 = [] ∧
    ∃ r, process_search noKeyOracle ["modivo"] "s1" 0 (fun _ => none) "s1" = some r ∧
      r.attributes_recognized = [] ∧
      r.stores_searched = ["modivo"].map (store_outcome noKeyOracle) ∧
      (noKeyOracle.save_metrics_result = Except.ok () →
        r.status = SearchStatus.completed) :=
  c7_analyzer_failure_zero_attributes noKeyVision noKeyOracle ["modivo"] "s1" 0
    (fun _ => none) "temp/s1.jpg" (Or.inl rfl) rfl rfl rfl (by simp)

/-- **C8** (documentation/code divergence, store phase scheduling): the store
loop of `process_search` runs its store searches sequentially — for the
two-store input, `"zalando"`'s search ends before `"modivo"`'s begins —
so the event order refutes the claimed parallel fan-out (every search
started before any completes), while the aggregation step does come last,
after all store searches have ended. -/
theorem c8_sequential_store_search :
    process_search_events ["zalando", "modivo"] =
      [SearchEvent.begin_store_search "zalando", SearchEvent.end_store_search "zalando",
       SearchEvent.begin_store_search "modivo", SearchEvent.end_store_search "modivo",
       SearchEvent.aggregate] ∧
    ¬ fan_out_order (process_search_events ["zalando", "modivo"]) ∧
    (process_search_events ["zalando", "modivo"]).getLast? = some SearchEvent.aggregate := by
  refine ⟨rfl, ?_, rfl⟩
  intro h
  have h21 := h 2 1 (by decide) (by decide) ⟨"modivo", rfl⟩ ⟨"zalando", rfl⟩
  omega

/-- **C5**: A submission whose image has a content type other than
`image/jpeg`/`image/png`, or whose payload exceeds 10 MiB
(`10 * 1024 * 1024` bytes), is rejected synchronously with a 400
validation error carrying the validator's message, the state store is
untouched (no record is created) and no background task is scheduled;
a valid submission is answered 202 with
`{search_id, "processing", estimated 10 seconds, timestamp}` and the
background task is scheduled with the requested (or defaulted) store
list. -/
theorem c5_submission_validation (image : UploadImage)
    (stores : Option (List String)) (search_id timestamp : String) (s : StateStore) :
    (image.content_type ≠ "image/jpeg" → image.content_type ≠ "image/png" →
      create_search image stores search_id timestamp s =
        (Except.error { status_code := 400, detail := "Invalid image format. Only JPEG/PNG accepted." }, s, none)) ∧
    ((image.content_type = "image/jpeg" ∨ image.content_type = "image/png") →
      10 * 1024 * 1024 < image.content_size →
      create_search image stores search_id timestamp s =
        (Except.error { status_code := 400, detail := "Image too large. Maximum size is 10 MB." }, s, none)) ∧
    ((image.content_type = "image/jpeg" ∨ image.content_type = "image/png") →
      image.content_size ≤ 10 * 1024 * 1024 →
      create_search image stores search_id timestamp s =
        (Except.ok (202, { search_id := search_id, status := "processing", estimated_time_seconds := 10, timestamp := timestamp }), s,
          some (match stores with
            | none => allStores
            | some l => if l = [] then allStores else l))) := by
  refine ⟨?_, ?_, ?_⟩
  · intro h1 h2
    have hv : validate_image image =
        (false, "Invalid image format. Only JPEG/PNG accepted.") := by
      unfold validate_image
      rw [if_pos ⟨h1, h2⟩]
    unfold create_search
    rw [hv]
    rfl
  · intro htype hsize
    have hq : (10 : ℚ) < (image.content_size : ℚ) / (1024 * 1024) := by
      rw [lt_div_iff₀ (by norm_num)]
      have : ((10 * 1024 * 1024 : ℕ) : ℚ) < (image.content_size : ℚ) := by
        exact_mod_cast hsize
      push_cast at this ⊢
      linarith
    have hv : validate_image image =
        (false, "Image too large. Maximum size is 10 MB.") := by
      unfold validate_image
      rw [if_neg (by tauto), if_pos hq]
    unfold create_search
    rw [hv]
    rfl
  · intro htype hsize
    have hq : ¬((image.content_size : ℚ) / (1024 * 1024) > 10) := by
      rw [not_lt, div_le_iff₀ (by norm_num)]
      have : ((image.content_size : ℕ) : ℚ) ≤ ((10 * 1024 * 1024 : ℕ) : ℚ) := by
        exact_mod_cast hsize
      push_cast at this ⊢
      linarith
    have hv : validate_image image = (true, "") := by
      unfold validate_image
      rw [if_neg (by tauto), if_neg hq]
    unfold create_search
    rw [hv]
    rfl

/-- Witness for `c5_submission_validation`: a 15 MiB PNG is rejected citing
size with no task scheduled; a 2 MiB JPEG with no store list is accepted
with status 202, `"processing"`, and the full store set. -/
theorem c5_submission_validation_witness :
    create_search { content_type := "image/png", content_size := 15 * 1024 * 1024 }
        none "s1" "t0" (fun _ => none) =
      (Except.error { status_code := 400, detail := "Image too large. Maximum size is 10 MB." }, fun _ => none, none) ∧
    create_search { content_type := "image/jpeg", content_size := 2 * 1024 * 1024 }
        none "s1" "t0" (fun _ => none) =
      (Except.ok (202, { search_id := "s1", status := "processing", estimated_time_seconds := 10, timestamp := "t0" }), fun _ => none,
        some allStores) := by
  constructor
  · exact (c5_submission_validation
      { content_type := "image/png", content_size := 15 * 1024 * 1024 }
      none "s1" "t0" (fun _ => none)).2.1 (Or.inr rfl) (by norm_num)
  · exact (c5_submission_validation
      { content_type := "image/jpeg", content_size := 2 * 1024 * 1024 }
      none "s1" "t0" (fun _ => none)).2.2 (Or.inl rfl) (by norm_num)

end FashionDetector
